import Mathlib

/-!
Verification of the service-client layering and response-composition subsystem
of the Keboola MCP server (`keboola_mcp_server/client.py` and
`keboola_mcp_server/tools/components/tools.py`).

The Python code is shallowly embedded: every network call is represented by
the `Request` it issues together with an oracle-supplied `HttpResponse`
(or an already-resolved `Except` result for calls made through collaborators
that are outside the sources).  JSON values are modelled by the inductive
type `Json`; Python `dict`s preserving insertion order are modelled by
association lists.
-/

/-- JSON values, the payloads of the HTTP layer. -/
inductive Json where
  | null : Json
  | bool (b : Bool) : Json
  | num (n : Int) : Json
  | str (s : String) : Json
  | arr (xs : List Json) : Json
  | obj (fields : List (String × Json)) : Json

/-- Looks up a key in a JSON object (first binding wins, as in a Python dict). -/
def Json.lookup (j : Json) (k : String) : Option Json :=
  match j with
  | .obj fields => (fields.find? (fun kv => kv.1 == k)).map (fun kv => kv.2)
  | _ => none

/-- Errors that can escape the embedded operations: HTTP failures carrying the
upstream status code and response body (httpx `raise_for_status`), the
`IndexError` raised by `list[1]` on a short list, pydantic-style validation
failures, and other exceptions of the Python runtime. -/
inductive KbcError where
  | http (status : Nat) (body : Json) : KbcError
  | indexError : KbcError
  | validation (msg : String) : KbcError
  | generic (msg : String) : KbcError


/-- HTTP verbs. -/
inductive Method where
  | get | post | put | delete


/-- How the request payload is encoded on the wire: no body, a JSON body
(httpx `json=` keyword) or an urlencoded form body (httpx `data=` keyword). -/
inductive Body where
  | none : Body
  | jsonBody (j : Json) : Body
  | formBody (j : Json) : Body

/-- An outgoing HTTP request as put on the wire by `httpx.AsyncClient`. -/
structure Request where
  method : Method
  url : String
  headers : List (String × String)
  queryParams : List (String × Json)
  body : Body

/-- An upstream HTTP response: status code plus decoded JSON body. -/
structure HttpResponse where
  status : Nat
  body : Json

/-! ### Python string primitives

`str.split(sep)` and `str.startswith` are re-implemented over `List Char`
with Python's semantics (split on every non-overlapping occurrence of a
non-empty separator, left to right). -/

/-- One step of Python `str.split`: `fuel` bounds the recursion by the length
of the string, which strictly decreases at every step. -/
def pySplitAux (sep : List Char) : Nat → List Char → List (List Char)
  | _, [] => [[]]
  | 0, s => [s]
  | fuel + 1, c :: rest =>
    if sep.isPrefixOf (c :: rest) then
      [] :: pySplitAux sep fuel ((c :: rest).drop sep.length)
    else
      match pySplitAux sep fuel rest with
      | [] => [[c]]
      | h :: t => (c :: h) :: t

/-- Python `s.split(sep)` for a non-empty separator (Python raises on an empty
separator; the marker used by the client is never empty). -/
def pySplit (sep s : List Char) : List (List Char) :=
  if sep.isEmpty then [s] else pySplitAux sep s.length s

/-- Python `sep.join(parts)`. -/
def pyJoin (sep : List Char) : List (List Char) → List Char
  | [] => []
  | [x] => x
  | x :: y :: t => x ++ sep ++ pyJoin sep (y :: t)

/-- Python `s.startswith(p)`. -/
def pyStartsWith (p s : String) : Bool :=
  p.data.isPrefixOf s.data

/-- Python `s.split(sep)` lifted to `String`. -/
def pySplitStr (s sep : String) : List String :=
  (pySplit sep.data s.data).map (fun l => ⟨l⟩)

/-! ### Properties of the Python split -/

/-- Python split never returns an empty list of parts. -/
theorem pySplitAux_ne_nil (sep : List Char) :
    ∀ (fuel : Nat) (s : List Char), pySplitAux sep fuel s ≠ [] := by
  intro fuel
  induction fuel with
  | zero => intro s; cases s <;> simp [pySplitAux]
  | succ n ih =>
    intro s
    cases s with
    | nil => simp [pySplitAux]
    | cons c rest =>
      simp only [pySplitAux]
      split
      · simp
      · split <;> simp

/-- Joining the parts with the separator reconstructs the string: the parts
returned by Python split are the segments between consecutive occurrences of
the separator. -/
theorem pyJoin_pySplitAux (sep : List Char) (hsep : sep ≠ []) :
    ∀ (fuel : Nat) (s : List Char), s.length ≤ fuel →
      pyJoin sep (pySplitAux sep fuel s) = s := by
  intro fuel
  induction fuel with
  | zero =>
    intro s hs
    have hz : s = [] := List.length_eq_zero.mp (Nat.le_zero.mp hs)
    subst hz
    simp [pySplitAux, pyJoin]
  | succ n ih =>
    intro s hs
    cases s with
    | nil => simp [pySplitAux, pyJoin]
    | cons c rest =>
      simp only [pySplitAux]
      split
      · next hc =>
        have hpre : sep <+: c :: rest := List.isPrefixOf_iff_prefix.mp hc
        obtain ⟨t, ht⟩ := hpre
        have hdrop : (c :: rest).drop sep.length = t := by
          rw [← ht]; exact List.drop_left sep t
        rw [hdrop]
        have hsl : 1 ≤ sep.length := by
          cases sep with
          | nil => exact absurd rfl hsep
          | cons x xs => simp
        have hlt : sep.length + t.length = rest.length + 1 := by
          have hlen := congrArg List.length ht
          simpa using hlen
        have hrest : rest.length + 1 ≤ n + 1 := by simpa using hs
        have hfuel : t.length ≤ n := by omega
        cases hps : pySplitAux sep n t with
        | nil => exact absurd hps (pySplitAux_ne_nil sep n t)
        | cons p ps =>
          have hj : pyJoin sep (p :: ps) = t := by rw [← hps]; exact ih t hfuel
          simp [pyJoin, hj, ← ht]
      · next hc =>
        have hrest : rest.length ≤ n := by
          have := hs
          simp only [List.length_cons] at this
          omega
        cases hps : pySplitAux sep n rest with
        | nil => exact absurd hps (pySplitAux_ne_nil sep n rest)
        | cons p ps =>
          have hj : pyJoin sep (p :: ps) = rest := by rw [← hps]; exact ih rest hrest
          cases ps with
          | nil =>
            show pyJoin sep [c :: p] = c :: rest
            simp only [pyJoin] at hj ⊢
            rw [hj]
          | cons q qs =>
            show pyJoin sep ((c :: p) :: q :: qs) = c :: rest
            simp only [pyJoin] at hj ⊢
            rw [← hj]
            simp

/-- When the separator does not occur in the string, Python split returns the
whole string as the single part (so indexing `[1]` raises `IndexError`). -/
theorem pySplitAux_marker_absent (sep : List Char) (hsep : sep ≠ []) :
    ∀ (fuel : Nat) (s : List Char), ¬ (sep <:+: s) → pySplitAux sep fuel s = [s] := by
  intro fuel
  induction fuel with
  | zero => intro s _; cases s <;> simp [pySplitAux]
  | succ n ih =>
    intro s h
    cases s with
    | nil => simp [pySplitAux]
    | cons c rest =>
      simp only [pySplitAux]
      have hpre : sep.isPrefixOf (c :: rest) = false := by
        rw [Bool.eq_false_iff]
        intro hc
        exact h (( List.isPrefixOf_iff_prefix.mp hc).isInfix)
      rw [hpre]
      have hrest : ¬ (sep <:+: rest) := fun hc => h (List.infix_cons hc)
      simp only [Bool.false_eq_true, if_false]
      rw [ih rest hrest]

/-- The first part returned by Python split is a prefix of the string. -/
theorem pySplitAux_head_isPre (sep : List Char) :
    ∀ (fuel : Nat) (s a : List Char) (ps : List (List Char)),
      pySplitAux sep fuel s = a :: ps → a <+: s := by
  intro fuel
  induction fuel with
  | zero =>
    intro s a ps h
    cases s with
    | nil =>
      simp [pySplitAux] at h
      simp [h.1]
    | cons c rest =>
      simp [pySplitAux] at h
      simp [h.1]
  | succ n ih =>
    intro s a ps h
    cases s with
    | nil =>
      simp [pySplitAux] at h
      simp [h.1]
    | cons c rest =>
      simp only [pySplitAux] at h
      by_cases hc : sep.isPrefixOf (c :: rest) = true
      · rw [if_pos hc] at h
        injection h with h1 h2
        rw [← h1]
        simp
      · rw [if_neg hc] at h
        cases hps : pySplitAux sep n rest with
        | nil => exact absurd hps (pySplitAux_ne_nil sep n rest)
        | cons p ps2 =>
          rw [hps] at h
          injection h with h1 h2
          have hp := ih rest p ps2 hps
          rw [← h1]
          exact List.cons_prefix_cons.mpr ⟨rfl, hp⟩

/-- The separator does not occur inside the first part returned by Python
split: the first part ends exactly at the first occurrence. -/
theorem pySplitAux_head_no_marker (sep : List Char) (hsep : sep ≠ []) :
    ∀ (fuel : Nat) (s a : List Char) (ps : List (List Char)),
      s.length ≤ fuel → pySplitAux sep fuel s = a :: ps → ¬ (sep <:+: a) := by
  intro fuel
  induction fuel with
  | zero =>
    intro s a ps hlen h
    have hz : s = [] := List.length_eq_zero.mp (Nat.le_zero.mp hlen)
    subst hz
    simp [pySplitAux] at h
    rw [h.1]
    simp [hsep]
  | succ n ih =>
    intro s a ps hlen h
    cases s with
    | nil =>
      simp [pySplitAux] at h
      rw [h.1]
      simp [hsep]
    | cons c rest =>
      have hrest : rest.length ≤ n := by
        simp only [List.length_cons] at hlen
        omega
      simp only [pySplitAux] at h
      by_cases hc : sep.isPrefixOf (c :: rest) = true
      · rw [if_pos hc] at h
        injection h with h1 h2
        rw [← h1]
        simp [hsep]
      · rw [if_neg hc] at h
        cases hps : pySplitAux sep n rest with
        | nil => exact absurd hps (pySplitAux_ne_nil sep n rest)
        | cons p ps2 =>
          rw [hps] at h
          injection h with h1 h2
          rw [← h1]
          intro hinf
          rcases List.infix_cons_iff.mp hinf with hpre | htail
          · have hp := pySplitAux_head_isPre sep n rest p ps2 hps
            have hcc : sep <+: c :: rest :=
              hpre.trans (List.cons_prefix_cons.mpr ⟨rfl, hp⟩)
            exact absurd ( List.isPrefixOf_iff_prefix.mpr hcc) hc
          · exact ih rest p ps2 hrest hps htail

/-! ### URL derivation and facade construction (`KeboolaClient.__init__`) -/

def _PREFIX_STORAGE_API_URL : String := "connection."
def _PREFIX_QUEUE_API_URL : String := "https://queue."
def _PREFIX_AISERVICE_API_URL : String := "https://ai."

/-- The scheme-normalization step of `KeboolaClient.__init__`: a URL that
starts with neither `http://` nor `https://` gets `https://` prepended. -/
def ensureScheme (url : String) : String :=
  if pyStartsWith "http://" url || pyStartsWith "https://" url then url
  else "https://" ++ url

/-- The default header dict built by `RawKeboolaClient.__init__`. -/
def defaultHeaders (api_token : String) : List (String × String) :=
  [("X-StorageApi-Token", api_token),
   ("Content-Type", "application/json"),
   ("Accept-encoding", "gzip")]

/-- Python `dict.update`: existing keys are overwritten in place, new keys are
appended in their own order. -/
def dictUpdate (base overrides : List (String × String)) : List (String × String) :=
  base.map (fun kv =>
    match overrides.find? (fun o => o.1 == kv.1) with
    | some o => o
    | none => kv) ++
  overrides.filter (fun o => !(base.any (fun kv => kv.1 == o.1)))

/-- State of `RawKeboolaClient`: fixed base URL plus the merged header dict. -/
structure RawKeboolaClient where
  base_api_url : String
  headers : List (String × String)


/-- Embeds `RawKeboolaClient.__init__`: stores the base URL and merges any extra
headers on top of the defaults. -/
def RawKeboolaClient.make (base_api_url api_token : String)
    (headers : Option (List (String × String)) := none) : RawKeboolaClient :=
  { base_api_url := base_api_url
    headers :=
      match headers with
      | some h => dictUpdate (defaultHeaders api_token) h
      | none => defaultHeaders api_token }

/-- The top-level facade built by `KeboolaClient.__init__`: the token, the
normalized storage URL, the two derived service roots and the per-service
clients (the synchronous storage SDK client is external and carries no state
beyond the same URL and token). -/
structure KeboolaClientModel where
  token : String
  storage_api_url : String
  queue_api_url : String
  ai_service_api_url : String
  storage_client : RawKeboolaClient
  jobs_queue_client : RawKeboolaClient
  ai_service_client : RawKeboolaClient


/-- Embeds `storage_api_url.split('connection.')[1]` from
`KeboolaClient.__init__`: `some` of the second part of the split when it
exists, `none` for the `IndexError` raised by `[1]` on a short list. -/
def deriveRemainder (url : String) : Option String :=
  match pySplitStr url _PREFIX_STORAGE_API_URL with
  | _ :: rem :: _ => some rem
  | _ => none

/-- Embeds `KeboolaClient.__init__`: normalizes the scheme, derives the
Job-Queue and AI-Service roots by re-prefixing the remainder
(`split('connection.')[1]`), and builds the per-service clients; the missing
remainder propagates the `IndexError`, so construction does not complete.
The construction issues no HTTP request, so the request trace (first
component) is always empty. -/
def KeboolaClient.init (storage_api_token : String)
    (storage_api_url : String := "https://connection.keboola.com") :
    List Request × Except KbcError KeboolaClientModel :=
  let url := ensureScheme storage_api_url
  match deriveRemainder url with
  | some rem =>
    let queue_api_url := _PREFIX_QUEUE_API_URL ++ rem
    let ai_service_api_url := _PREFIX_AISERVICE_API_URL ++ rem
    ([], .ok
      { token := storage_api_token
        storage_api_url := url
        queue_api_url := queue_api_url
        ai_service_api_url := ai_service_api_url
        storage_client := RawKeboolaClient.make (url ++ "/v2/storage") storage_api_token
        jobs_queue_client := RawKeboolaClient.make queue_api_url storage_api_token
        ai_service_client := RawKeboolaClient.make ai_service_api_url storage_api_token })
  | _ => ([], .error .indexError)

/-- Projects the queue root out of a construction result. -/
def queue_api_url_of (r : Except KbcError KeboolaClientModel) : Option String :=
  match r with
  | .ok f => some f.queue_api_url
  | .error _ => none

/-- Projects the AI-service root out of a construction result. -/
def ai_service_api_url_of (r : Except KbcError KeboolaClientModel) : Option String :=
  match r with
  | .ok f => some f.ai_service_api_url
  | .error _ => none

/-! ### The raw transport verbs (`RawKeboolaClient.get/post/put/delete`)

Each verb opens a fresh session and performs exactly one request, so it is
modelled as a function from the oracle-supplied upstream `HttpResponse` to the
singleton request trace together with the outcome of
`response.raise_for_status()` followed by `response.json()`. -/

/-- httpx `response.raise_for_status(); response.json()`: a 2xx status yields
the decoded JSON body, any other status raises an `HTTPStatusError` carrying
the status code and the response body. -/
def raiseForStatus (resp : HttpResponse) : Except KbcError Json :=
  if 200 ≤ resp.status ∧ resp.status < 300 then .ok resp.body
  else .error (.http resp.status resp.body)

/-- The request built by `RawKeboolaClient.get`: query parameters, no body. -/
def RawKeboolaClient.getRequest (c : RawKeboolaClient) (endpoint : String)
    (params : List (String × Json)) (headers : List (String × String)) : Request :=
  { method := .get
    url := c.base_api_url ++ "/" ++ endpoint
    headers := dictUpdate c.headers headers
    queryParams := params
    body := .none }

/-- The request built by `RawKeboolaClient.post`: the payload goes out as a
JSON body (httpx `json=data or \x7b\x7d`). -/
def RawKeboolaClient.postRequest (c : RawKeboolaClient) (endpoint : String)
    (data : Option Json) (headers : List (String × String)) : Request :=
  { method := .post
    url := c.base_api_url ++ "/" ++ endpoint
    headers := dictUpdate c.headers headers
    queryParams := []
    body := .jsonBody (data.getD (Json.obj [])) }

/-- The request built by `RawKeboolaClient.put`: the payload goes out as an
urlencoded form body (httpx `data=data or \x7b\x7d`), unlike `post`. -/
def RawKeboolaClient.putRequest (c : RawKeboolaClient) (endpoint : String)
    (data : Option Json) (headers : List (String × String)) : Request :=
  { method := .put
    url := c.base_api_url ++ "/" ++ endpoint
    headers := dictUpdate c.headers headers
    queryParams := []
    body := .formBody (data.getD (Json.obj [])) }

/-- The request built by `RawKeboolaClient.delete`: no body. -/
def RawKeboolaClient.deleteRequest (c : RawKeboolaClient) (endpoint : String)
    (headers : List (String × String)) : Request :=
  { method := .delete
    url := c.base_api_url ++ "/" ++ endpoint
    headers := dictUpdate c.headers headers
    queryParams := []
    body := .none }

/-- Embeds `RawKeboolaClient.get`. -/
def RawKeboolaClient.get (c : RawKeboolaClient) (endpoint : String)
    (params : List (String × Json)) (headers : List (String × String))
    (resp : HttpResponse) : List Request × Except KbcError Json :=
  ([c.getRequest endpoint params headers], raiseForStatus resp)

/-- Embeds `RawKeboolaClient.post`. -/
def RawKeboolaClient.post (c : RawKeboolaClient) (endpoint : String)
    (data : Option Json) (headers : List (String × String))
    (resp : HttpResponse) : List Request × Except KbcError Json :=
  ([c.postRequest endpoint data headers], raiseForStatus resp)

/-- Embeds `RawKeboolaClient.put`. -/
def RawKeboolaClient.put (c : RawKeboolaClient) (endpoint : String)
    (data : Option Json) (headers : List (String × String))
    (resp : HttpResponse) : List Request × Except KbcError Json :=
  ([c.putRequest endpoint data headers], raiseForStatus resp)

/-- Embeds `RawKeboolaClient.delete`. -/
def RawKeboolaClient.delete (c : RawKeboolaClient) (endpoint : String)
    (headers : List (String × String))
    (resp : HttpResponse) : List Request × Except KbcError Json :=
  ([c.deleteRequest endpoint headers], raiseForStatus resp)

/-! ### Job-Queue client (`JobsQueueClient`) -/

/-- The optional named predicates accepted by `JobsQueueClient.search_jobs_by`,
with the Python defaults. -/
structure SearchJobsArgs where
  component_id : Option String := none
  config_id : Option String := none
  status : Option (List String) := none
  limit : Int := 100
  offset : Int := 0
  sort_by : Option String := some "startTime"
  sort_order : Option String := some "desc"

/-- The params dict literal built inside `search_jobs_by`, before the
`is not None` filter: every key is present, optional predicates map to
`None` (`Option.none`) when unset. -/
def rawSearchParams (a : SearchJobsArgs) : List (String × Option Json) :=
  [("componentId", a.component_id.map Json.str),
   ("configId", a.config_id.map Json.str),
   ("status", a.status.map (fun l => Json.arr (l.map Json.str))),
   ("limit", some (Json.num a.limit)),
   ("offset", some (Json.num a.offset)),
   ("sortBy", a.sort_by.map Json.str),
   ("sortOrder", a.sort_order.map Json.str)]

/-- Embeds `params = \x7bk: v for k, v in params.items() if v is not None\x7d`. -/
def searchJobsParams (a : SearchJobsArgs) : List (String × Json) :=
  (rawSearchParams a).filterMap (fun kv => kv.2.map (fun v => (kv.1, v)))

/-- Embeds `JobsQueueClient._search`: one GET against `search/jobs`. -/
def JobsQueueClient._search (c : RawKeboolaClient) (params : List (String × Json))
    (resp : HttpResponse) : List Request × Except KbcError Json :=
  c.get "search/jobs" params [] resp

/-- Embeds `JobsQueueClient.search_jobs_by`: builds the sparse filter mapping and
issues one GET through `_search`. -/
def JobsQueueClient.search_jobs_by (c : RawKeboolaClient) (a : SearchJobsArgs)
    (resp : HttpResponse) : List Request × Except KbcError Json :=
  JobsQueueClient._search c (searchJobsParams a) resp

/-- Embeds `JobsQueueClient.get_job_detail`: one GET against `jobs/\x7bjob_id\x7d`,
the raw result propagated verbatim. -/
def JobsQueueClient.get_job_detail (c : RawKeboolaClient) (job_id : String)
    (resp : HttpResponse) : List Request × Except KbcError Json :=
  c.get ("jobs/" ++ job_id) [] [] resp

/-! ### Configuration-retrieval composition
(`tools/components/tools.py`)

The helpers `_get_component_details`, `_retrieve_components_configurations_by_ids`,
`_retrieve_components_configurations_by_types` and `_handle_component_types`
live in `tools/components/utils.py`, which is not among the sources; the
results of the sub-fetches they perform are therefore passed in as resolved
`Except` values, and the parts of their behaviour a claim depends on are
modelled from the spec where noted. -/

/-- Composite configuration object assembled by
`get_component_configuration_details` (the pydantic shape-validation detail of
`ComponentConfiguration.model_validate` is out of scope per the spec). -/
structure ComponentConfigurationModel where
  raw_configuration : Json
  component : Json
  component_id : String
  metadata : Json

/-- Embeds `get_component_configuration_details`: fetch the component static
details (hard failure aborts), then the raw configuration body via the
synchronous storage path (hard failure aborts), then the configuration
metadata (whose value, empty or not, is embedded in the composite as is;
the `if r_metadata:` branch in the source only selects a log message). -/
def get_component_configuration_details (component_id configuration_id : String)
    (componentResult : Except KbcError Json)
    (configurationResult : Except KbcError Json)
    (metadataResult : Except KbcError Json) :
    Except KbcError ComponentConfigurationModel :=
  match componentResult with
  | .error e => .error e
  | .ok component =>
    match configurationResult with
    | .error e => .error e
    | .ok raw_configuration =>
      match metadataResult with
      | .error e => .error e
      | .ok r_metadata =>
        .ok { raw_configuration := raw_configuration
              component := component
              component_id := component_id
              metadata := r_metadata }

/-- Which of the two mutually exclusive retrieval strategies a listing tool
dispatches to, together with the arguments it passes down. -/
inductive RetrievalStrategy where
  | byTypes (types : List String) : RetrievalStrategy
  | byIds (ids : List String) : RetrievalStrategy

/-- Modelled from the spec: `_handle_component_types` lives in the absent
`utils` module; per the source comment "if none, return all types" it expands
an empty type filter to the list of all component types. -/
def _handle_component_types (component_types : List String) : List String :=
  if component_types.isEmpty then ["application", "extractor", "writer"]
  else component_types

/-- Embeds the strategy dispatch of `retrieve_components_configurations`:
an empty id list selects the type-based list-then-expand strategy, a
non-empty id list selects retrieval by explicit ids. -/
def retrieve_components_configurations (component_types component_ids : List String) :
    RetrievalStrategy :=
  if component_ids.isEmpty then
    .byTypes (_handle_component_types component_types)
  else
    .byIds component_ids

/-- Embeds the strategy dispatch of `retrieve_transformations_configurations`. -/
def retrieve_transformations_configurations (transformation_ids : List String) :
    RetrievalStrategy :=
  if transformation_ids.isEmpty then
    .byTypes ["transformation"]
  else
    .byIds transformation_ids

/-! ### SQL-transformation creation (`create_sql_transformation`) -/

/-- The two SQL dialects recognized by the external workspace capability. -/
inductive SqlDialect where
  | snowflake | bigquery

/-- Modelled from the spec: the fixed two-entry dialect-to-component-id lookup
of `_get_sql_transformation_id_from_sql_dialect` (absent `utils` module). -/
def _get_sql_transformation_id_from_sql_dialect : SqlDialect → String
  | .snowflake => "keboola.snowflake-transformation"
  | .bigquery => "keboola.google-bigquery-transformation"

/-- Modelled from the spec: `_get_transformation_configuration` (absent `utils`
module) builds the configuration payload with the ordered statement list under
a `parameters` section and the output-table declaration under a
`storage.output` section, both taken verbatim from the caller. -/
def _get_transformation_configuration (statements : List String)
    (transformation_name : String) (output_tables : List String) : Json :=
  Json.obj
    [("parameters", Json.obj
       [("name", .str transformation_name),
        ("statements", .arr (statements.map Json.str))]),
     ("storage", Json.obj
       [("output", Json.obj
          [("tables", .arr (output_tables.map Json.str))])])]

/-- Modelled from the spec: the component-detail fetch that
`_get_component_details` (absent `utils` module) performs against the
AI-service documentation endpoint. -/
def componentDetailsRequest (ai_client : RawKeboolaClient) (component_id : String) :
    Request :=
  ai_client.getRequest ("docs/components/" ++ component_id) [] []

/-- Embeds `create_sql_transformation`: resolve the dialect (fatal on
failure), build the payload, POST the new configuration, re-fetch the
component details and compose the returned configuration; any exception
inside the `try` block is logged and re-raised unchanged (`raise e`), with no
compensating request.  `dialectResult` stands for the awaited
`get_sql_dialect(ctx)`, `postResult` and `componentResult` for the awaited
HTTP results, and `validate` for the local pydantic composition
`ComponentConfiguration(**raw, component_id=..., component=...)`. -/
def create_sql_transformation
    (name description : String)
    (sql_statements created_table_names : List String)
    (dialectResult : Except KbcError SqlDialect)
    (client : KeboolaClientModel) (branch_id : String)
    (postResult : Except KbcError Json)
    (componentResult : Except KbcError Json)
    (validate : Json → Json → Except KbcError ComponentConfigurationModel) :
    List Request × Except KbcError ComponentConfigurationModel :=
  match dialectResult with
  | .error e => ([], .error e)
  | .ok sql_dialect =>
    let transformation_id := _get_sql_transformation_id_from_sql_dialect sql_dialect
    let payload := _get_transformation_configuration sql_statements name created_table_names
    let endpoint := "branch/" ++ branch_id ++ "/components/" ++ transformation_id ++ "/configs"
    let data := Json.obj
      [("name", .str name),
       ("description", .str description),
       ("configuration", payload)]
    let postReq := client.storage_client.postRequest endpoint (some data) []
    match postResult with
    | .error e => ([postReq], .error e)
    | .ok raw =>
      let compReq := componentDetailsRequest client.ai_service_client transformation_id
      match componentResult with
      | .error e => ([postReq, compReq], .error e)
      | .ok component =>
        match validate raw component with
        | .error e => ([postReq, compReq], .error e)
        | .ok cfg => ([postReq, compReq], .ok cfg)

/-! ### Data-app creation (`create_data_app`) -/

/-- Modelled from the spec: the `DataApp` pydantic model (absent
`components/model.py`), with exactly the fields the source passes to its
constructor. -/
structure DataAppModel where
  slug : String
  script : List String
  size : String
  autoSuspendAfterSeconds : Int
  streamlit : Json

/-- Modelled from the spec: `DataApp.model_dump()` serializes the model
fields. -/
def DataAppModel.model_dump (d : DataAppModel) : Json :=
  Json.obj
    [("slug", .str d.slug),
     ("script", .arr (d.script.map Json.str)),
     ("size", .str d.size),
     ("autoSuspendAfterSeconds", .num d.autoSuspendAfterSeconds),
     ("streamlit", d.streamlit)]

/-- The default Keboola streamlit theme settings block from the source. -/
def streamlitDefault : Json :=
  Json.obj
    [("config.toml", .str "[theme]\nfont = \"sans serif\"\ntextColor = \"#222529\"\nbackgroundColor = \"#FFFFFF\"\nsecondaryBackgroundColor = \"#E6F2FF\"\nprimaryColor = \"#1F8FFF\"")]

/-- The fixed open-access authorization policy from the source: no auth
providers, one catch-all `pathPrefix` rule with `auth_required: false`. -/
def dataAppAuthorization : Json :=
  Json.obj
    [("app_proxy", Json.obj
       [("auth_providers", .arr []),
        ("auth_rules", .arr
          [Json.obj
            [("type", .str "pathPrefix"),
             ("value", .str "/"),
             ("auth_required", .bool false)]])])]

/-- Composite returned by `create_data_app` (pydantic detail out of scope). -/
structure DataAppConfigurationModel where
  raw_configuration : Json
  component_id : String
  component : Json
  data_app : DataAppModel
  authorization : Json

/-- The `configuration` dict literal built inside `create_data_app`: nests
size, auto-suspend, the dumped `DataApp`, the slug as `id` and the script
under `parameters`, alongside the fixed authorization policy. -/
def dataAppConfiguration (name description slug : String) (scr : List String)
    (size : String) (auto_suspend_after_seconds : Int)
    (streamlit_config : Option Json) : Json :=
  let data_app : DataAppModel :=
    { slug := slug
      script := scr
      size := size
      autoSuspendAfterSeconds := auto_suspend_after_seconds
      streamlit := streamlit_config.getD streamlitDefault }
  Json.obj
    [("name", .str name),
     ("description", .str description),
     ("configuration", Json.obj
       [("parameters", Json.obj
          [("size", .str size),
           ("autoSuspendAfterSeconds", .num auto_suspend_after_seconds),
           ("dataApp", data_app.model_dump),
           ("id", .str slug),
           ("script", .arr (scr.map Json.str))]),
        ("authorization", dataAppAuthorization)])]

/-- Embeds `create_data_app`: when the supplied script is `None` or empty
(Python falsiness of `if not script:`), one call is made to the external
script generator, whose outcome is `genResult`; otherwise the generator is
skipped.  The POST and the subsequent composition mirror
`create_sql_transformation`, with failures re-raised unchanged (`raise e`).
The first component of the result records whether the generator was
invoked. -/
def create_data_app
    (name description slug : String)
    (script : Option (List String))
    (size : String) (auto_suspend_after_seconds : Int)
    (streamlit_config : Option Json)
    (client : KeboolaClientModel) (branch_id : String)
    (genResult : Except KbcError (List String))
    (postResult : Except KbcError Json)
    (componentResult : Except KbcError Json)
    (validate : Json → Json → Except KbcError DataAppConfigurationModel) :
    Bool × List Request × Except KbcError DataAppConfigurationModel :=
  let generationUsed : Bool :=
    match script with
    | none => true
    | some [] => true
    | some (_ :: _) => false
  let scriptResult : Except KbcError (List String) :=
    if generationUsed then genResult else .ok (script.getD [])
  match scriptResult with
  | .error e => (generationUsed, [], .error e)
  | .ok scr =>
    let configuration := dataAppConfiguration name description slug scr size
      auto_suspend_after_seconds streamlit_config
    let component_id := "keboola.app-data-app"
    let endpoint := "branch/" ++ branch_id ++ "/components/" ++ component_id ++ "/configs"
    let postReq := client.storage_client.postRequest endpoint (some configuration) []
    match postResult with
    | .error e => (generationUsed, [postReq], .error e)
    | .ok raw =>
      let compReq := componentDetailsRequest client.ai_service_client component_id
      match componentResult with
      | .error e => (generationUsed, [postReq, compReq], .error e)
      | .ok component =>
        match validate raw component with
        | .error e => (generationUsed, [postReq, compReq], .error e)
        | .ok cfg => (generationUsed, [postReq, compReq], .ok cfg)

/-! ### Claim theorems -/

/-- Looks up a key in a params mapping. -/
def lookupParam (params : List (String × Json)) (k : String) : Option Json :=
  (params.find? (fun kv => kv.1 == k)).map (fun kv => kv.2)

/-- C2: for every combination of optional arguments, `search_jobs_by` issues
exactly one GET to `search/jobs` whose query mapping contains exactly the
predicates whose value is non-null under their upstream field names
(`componentId`, `configId`, `status`, plus `limit`, `offset`, `sortBy`,
`sortOrder`), with unset predicates omitted and never sent as null; in
particular `search_jobs_by(component_id="ex-1", status=["success"], limit=10)`
sends exactly `componentId: "ex-1"`, `status: ["success"]`, `limit: 10`,
`offset: 0`, `sortBy: "startTime"`, `sortOrder: "desc"` and no other keys. -/
theorem search_jobs_by_sends_exactly_nonnull_predicates :
    (∀ (c : RawKeboolaClient) (a : SearchJobsArgs) (resp : HttpResponse),
      (JobsQueueClient.search_jobs_by c a resp).1 =
        [c.getRequest "search/jobs" (searchJobsParams a) []]) ∧
    (∀ a : SearchJobsArgs,
      lookupParam (searchJobsParams a) "componentId" = a.component_id.map Json.str ∧
      lookupParam (searchJobsParams a) "configId" = a.config_id.map Json.str ∧
      lookupParam (searchJobsParams a) "status" =
        a.status.map (fun l => Json.arr (l.map Json.str)) ∧
      lookupParam (searchJobsParams a) "limit" = some (Json.num a.limit) ∧
      lookupParam (searchJobsParams a) "offset" = some (Json.num a.offset) ∧
      lookupParam (searchJobsParams a) "sortBy" = a.sort_by.map Json.str ∧
      lookupParam (searchJobsParams a) "sortOrder" = a.sort_order.map Json.str ∧
      (∀ kv ∈ searchJobsParams a,
        kv.1 ∈ (["componentId", "configId", "status", "limit", "offset", "sortBy",
          "sortOrder"] : List String)) ∧
      (∀ kv ∈ searchJobsParams a, kv.2 ≠ Json.null)) ∧
    (searchJobsParams
        { component_id := some "ex-1", status := some ["success"], limit := 10 } =
      [("componentId", Json.str "ex-1"), ("status", Json.arr [Json.str "success"]),
       ("limit", Json.num 10), ("offset", Json.num 0),
       ("sortBy", Json.str "startTime"), ("sortOrder", Json.str "desc")]) := by
  refine ⟨fun c a resp => rfl, fun a => ?_, rfl⟩
  obtain ⟨cid, cfg, st, lim, off, sb, so⟩ := a
  cases cid <;> cases cfg <;> cases st <;> cases sb <;> cases so <;>
    simp [searchJobsParams, rawSearchParams, lookupParam]

/-- C1: `get_component_configuration_details` materializes its composite only
if both required sub-fetches succeed — a failing component-details fetch or a
failing configuration-body fetch aborts the whole operation by propagating
that error — while a metadata fetch returning an empty result is not an
error: the composite is still returned with its metadata field empty. -/
theorem get_component_configuration_details_requires_both_fetches :
    (∀ (component_id configuration_id : String) (e : KbcError)
        (configurationResult metadataResult : Except KbcError Json),
      get_component_configuration_details component_id configuration_id
        (.error e) configurationResult metadataResult = .error e) ∧
    (∀ (component_id configuration_id : String) (component : Json) (e : KbcError)
        (metadataResult : Except KbcError Json),
      get_component_configuration_details component_id configuration_id
        (.ok component) (.error e) metadataResult = .error e) ∧
    (∀ (component_id configuration_id : String) (component raw_configuration : Json),
      get_component_configuration_details component_id configuration_id
        (.ok component) (.ok raw_configuration) (.ok (Json.arr [])) =
        .ok { raw_configuration := raw_configuration
              component := component
              component_id := component_id
              metadata := Json.arr [] }) :=
  ⟨fun _ _ _ _ _ => rfl, fun _ _ _ _ _ => rfl, fun _ _ _ _ => rfl⟩

/-- C8: when a non-empty list of explicit ids is supplied, retrieval proceeds
exclusively by those ids and the component-type filter is ignored entirely;
the type-based strategy is used only when the id list is empty — the two
strategies are mutually exclusive. -/
theorem explicit_ids_win_over_type_filter :
    (∀ (component_types other_types component_ids : List String),
      component_ids ≠ [] →
      retrieve_components_configurations component_types component_ids =
        .byIds component_ids ∧
      retrieve_components_configurations component_types component_ids =
        retrieve_components_configurations other_types component_ids) ∧
    (∀ component_types : List String,
      retrieve_components_configurations component_types [] =
        .byTypes (_handle_component_types component_types)) ∧
    (∀ transformation_ids : List String, transformation_ids ≠ [] →
      retrieve_transformations_configurations transformation_ids =
        .byIds transformation_ids) ∧
    retrieve_transformations_configurations [] = .byTypes ["transformation"] := by
  refine ⟨fun tys tys2 ids h => ?_, fun tys => rfl, fun ids h => ?_, rfl⟩
  · have hne : ids.isEmpty = false := by
      cases ids with
      | nil => exact absurd rfl h
      | cons x xs => rfl
    constructor <;> simp [retrieve_components_configurations, hne]
  · have hne : ids.isEmpty = false := by
      cases ids with
      | nil => exact absurd rfl h
      | cons x xs => rfl
    simp [retrieve_transformations_configurations, hne]

/-- Witness for C8 at concrete inputs: a one-element id list beats a type
filter in both tools. -/
theorem explicit_ids_win_over_type_filter_witness :
    (retrieve_components_configurations ["extractor"] ["keboola.ex-db-mysql"] =
      .byIds ["keboola.ex-db-mysql"] ∧
     retrieve_components_configurations ["extractor"] ["keboola.ex-db-mysql"] =
      retrieve_components_configurations ["writer"] ["keboola.ex-db-mysql"]) ∧
    retrieve_transformations_configurations ["keboola.snowflake-transformation"] =
      .byIds ["keboola.snowflake-transformation"] :=
  ⟨explicit_ids_win_over_type_filter.1 ["extractor"] ["writer"]
      ["keboola.ex-db-mysql"] (by simp),
   explicit_ids_win_over_type_filter.2.2.1 ["keboola.snowflake-transformation"]
      (by simp)⟩

/-- C4: every raw-transport verb issues exactly one request; a non-2xx
upstream status makes the call fail with an error carrying the status code and
response body, propagated verbatim, while a 2xx status returns the parsed JSON
body; in particular `get_job_detail` on an upstream 404 surfaces an error
carrying status 404 and the response body, never an empty result. -/
theorem raw_transport_propagates_status_verbatim :
    (∀ (c : RawKeboolaClient) (endpoint : String) (params : List (String × Json))
        (headers : List (String × String)) (resp : HttpResponse),
      (c.get endpoint params headers resp).1 = [c.getRequest endpoint params headers] ∧
      (resp.status < 200 ∨ 300 ≤ resp.status →
        (c.get endpoint params headers resp).2 = .error (.http resp.status resp.body)) ∧
      (200 ≤ resp.status → resp.status < 300 →
        (c.get endpoint params headers resp).2 = .ok resp.body)) ∧
    (∀ (c : RawKeboolaClient) (endpoint : String) (data : Option Json)
        (headers : List (String × String)) (resp : HttpResponse),
      (c.post endpoint data headers resp).1 = [c.postRequest endpoint data headers] ∧
      (resp.status < 200 ∨ 300 ≤ resp.status →
        (c.post endpoint data headers resp).2 = .error (.http resp.status resp.body)) ∧
      (200 ≤ resp.status → resp.status < 300 →
        (c.post endpoint data headers resp).2 = .ok resp.body)) ∧
    (∀ (c : RawKeboolaClient) (endpoint : String) (data : Option Json)
        (headers : List (String × String)) (resp : HttpResponse),
      (c.put endpoint data headers resp).1 = [c.putRequest endpoint data headers] ∧
      (resp.status < 200 ∨ 300 ≤ resp.status →
        (c.put endpoint data headers resp).2 = .error (.http resp.status resp.body)) ∧
      (200 ≤ resp.status → resp.status < 300 →
        (c.put endpoint data headers resp).2 = .ok resp.body)) ∧
    (∀ (c : RawKeboolaClient) (endpoint : String)
        (headers : List (String × String)) (resp : HttpResponse),
      (c.delete endpoint headers resp).1 = [c.deleteRequest endpoint headers] ∧
      (resp.status < 200 ∨ 300 ≤ resp.status →
        (c.delete endpoint headers resp).2 = .error (.http resp.status resp.body)) ∧
      (200 ≤ resp.status → resp.status < 300 →
        (c.delete endpoint headers resp).2 = .ok resp.body)) ∧
    (∀ (c : RawKeboolaClient) (job_id : String) (body : Json),
      (JobsQueueClient.get_job_detail c job_id { status := 404, body := body }).2 =
        .error (.http 404 body)) := by
  refine ⟨fun c e p h resp => ⟨rfl, fun hs => ?_, fun h1 h2 => ?_⟩,
          fun c e d h resp => ⟨rfl, fun hs => ?_, fun h1 h2 => ?_⟩,
          fun c e d h resp => ⟨rfl, fun hs => ?_, fun h1 h2 => ?_⟩,
          fun c e h resp => ⟨rfl, fun hs => ?_, fun h1 h2 => ?_⟩,
          fun c j b => ?_⟩ <;>
    simp only [RawKeboolaClient.get, RawKeboolaClient.post, RawKeboolaClient.put,
      RawKeboolaClient.delete, JobsQueueClient.get_job_detail, raiseForStatus]
  · rw [if_neg (by omega)]
  · rw [if_pos ⟨h1, h2⟩]
  · rw [if_neg (by omega)]
  · rw [if_pos ⟨h1, h2⟩]
  · rw [if_neg (by omega)]
  · rw [if_pos ⟨h1, h2⟩]
  · rw [if_neg (by omega)]
  · rw [if_pos ⟨h1, h2⟩]
  · rw [if_neg (by omega)]

/-- Witness for C4 at concrete inputs: a 404 GET fails with an error carrying
status 404 and the body, a 200 GET returns the parsed body. -/
theorem raw_transport_propagates_status_verbatim_witness :
    ((RawKeboolaClient.make "https://queue.keboola.com" "tok").get "jobs/123" [] []
        { status := 404, body := Json.str "not found" }).2 =
      .error (.http 404 (Json.str "not found")) ∧
    ((RawKeboolaClient.make "https://queue.keboola.com" "tok").get "jobs/123" [] []
        { status := 200, body := Json.obj [("id", Json.str "123")] }).2 =
      .ok (Json.obj [("id", Json.str "123")]) ∧
    (JobsQueueClient.get_job_detail (RawKeboolaClient.make "https://queue.keboola.com" "tok")
        "123" { status := 404, body := Json.str "not found" }).2 =
      .error (.http 404 (Json.str "not found")) :=
  ⟨((raw_transport_propagates_status_verbatim.1
      (RawKeboolaClient.make "https://queue.keboola.com" "tok") "jobs/123" [] []
      { status := 404, body := Json.str "not found" }).2.1 (by decide)),
   ((raw_transport_propagates_status_verbatim.1
      (RawKeboolaClient.make "https://queue.keboola.com" "tok") "jobs/123" [] []
      { status := 200, body := Json.obj [("id", Json.str "123")] }).2.2
      (by decide) (by decide)),
   (raw_transport_propagates_status_verbatim.2.2.2.2
      (RawKeboolaClient.make "https://queue.keboola.com" "tok") "123"
      (Json.str "not found"))⟩

/-- Discriminates the JSON-encoded request bodies from the rest. -/
def Body.isJsonEncoded : Body → Bool
  | .jsonBody _ => true
  | _ => false

/-- C5 (divergence witness): a PUT through the raw transport client sends its
payload as an urlencoded form body (httpx `data=`), while the same payload on
a POST goes out as a JSON body (httpx `json=`) — the PUT request body is not
JSON-encoded, contradicting the outbound HTTP contract that POST/PUT use JSON
bodies (the client's own fixed headers declare `Content-Type:
application/json`). -/
theorem put_body_is_form_encoded_not_json :
    ((RawKeboolaClient.make "https://connection.keboola.com/v2/storage" "tok").put
        "buckets/in.c-demo/metadata" (some (Json.obj [("provider", Json.str "user")])) []
        { status := 200, body := Json.obj [] }).1.map
      (fun r => (r.body, r.body.isJsonEncoded)) =
      [(Body.formBody (Json.obj [("provider", Json.str "user")]), false)] ∧
    ((RawKeboolaClient.make "https://connection.keboola.com/v2/storage" "tok").post
        "buckets/in.c-demo/metadata" (some (Json.obj [("provider", Json.str "user")])) []
        { status := 200, body := Json.obj [] }).1.map
      (fun r => (r.body, r.body.isJsonEncoded)) =
      [(Body.jsonBody (Json.obj [("provider", Json.str "user")]), true)] :=
  ⟨rfl, rfl⟩

/-- Python `sep.join(parts)` lifted to `String`. -/
def pyJoinStr (sep : String) (parts : List String) : String :=
  ⟨pyJoin sep.data (parts.map String.data)⟩

/-- Bridge from the string-level split to the character-level one. -/
theorem pySplitStr_eq_map (s sep : String) :
    (pySplitStr s sep).map String.data = pySplit sep.data s.data := by
  unfold pySplitStr
  rw [List.map_map]
  have : (String.data ∘ fun l => (⟨l⟩ : String)) = id := by
    funext l
    rfl
  rw [this, List.map_id]

/-- Joining the parts of a string-level split with the separator reconstructs
the string. -/
theorem pyJoinStr_pySplitStr (s sep : String) (hsep : sep.data ≠ []) :
    pyJoinStr sep (pySplitStr s sep) = s := by
  unfold pyJoinStr
  rw [pySplitStr_eq_map]
  unfold pySplit
  have he : sep.data.isEmpty = false := by
    cases hd : sep.data with
    | nil => exact absurd hd hsep
    | cons x xs => rfl
  rw [he]
  simp only [Bool.false_eq_true, if_false]
  rw [pyJoin_pySplitAux sep.data hsep s.data.length s.data (Nat.le_refl _)]

/-- The separator does not occur in the first part of a string-level split. -/
theorem pySplitStr_head_no_marker (s sep a : String) (ps : List String)
    (hsep : sep.data ≠ []) (h : pySplitStr s sep = a :: ps) :
    ¬ (sep.data <:+: a.data) := by
  have hm := congrArg (List.map String.data) h
  rw [pySplitStr_eq_map] at hm
  unfold pySplit at hm
  have he : sep.data.isEmpty = false := by
    cases hd : sep.data with
    | nil => exact absurd hd hsep
    | cons x xs => rfl
  rw [he] at hm
  simp only [Bool.false_eq_true, if_false, List.map_cons] at hm
  exact pySplitAux_head_no_marker sep.data hsep s.data.length s.data a.data
    (ps.map String.data) (Nat.le_refl _) hm

/-- Splitting a string that does not contain the separator yields the whole
string as the single part. -/
theorem pySplitStr_marker_absent (s sep : String) (hsep : sep.data ≠ [])
    (h : ¬ (sep.data <:+: s.data)) : pySplitStr s sep = [s] := by
  unfold pySplitStr pySplit
  have he : sep.data.isEmpty = false := by
    cases hd : sep.data with
    | nil => exact absurd hd hsep
    | cons x xs => rfl
  rw [he]
  simp only [Bool.false_eq_true, if_false]
  rw [pySplitAux_marker_absent sep.data hsep s.data.length s.data h]
  rfl

/-- C3 (amended): for every token and connection URL in which the marker
segment `connection.` is absent, facade construction makes no network call
(empty request trace) but does not complete: URL derivation hits the
`IndexError` of `split('connection.')[1]`, so no facade — and hence no
malformed derived root — is ever produced, and no dependent-service call can
be reached. -/
theorem init_fails_when_marker_absent (token url : String)
    (h : ¬ (_PREFIX_STORAGE_API_URL.data <:+: (ensureScheme url).data)) :
    KeboolaClient.init token url = ([], .error .indexError) := by
  have hm : _PREFIX_STORAGE_API_URL.data ≠ [] := by decide
  have hs := pySplitStr_marker_absent (ensureScheme url) _PREFIX_STORAGE_API_URL hm h
  simp only [KeboolaClient.init, deriveRemainder]
  rw [hs]

/-- Witness for C3 at a concrete input: a URL without the marker segment. -/
theorem init_fails_when_marker_absent_witness :
    KeboolaClient.init "token-123" "https://example.com" = ([], .error .indexError) :=
  init_fails_when_marker_absent "token-123" "https://example.com" (by decide)

/-- Counterexample to C3 as stated: with the marker absent, construction does
not complete and produce a malformed derived root — it fails outright with the
index error, before any request could be made. -/
theorem init_without_marker_does_not_complete :
    KeboolaClient.init "token-123" "https://storage.googleapis.com" =
      ([], .error .indexError) := rfl

/-- C9 (amended): for every connection URL whose normalized form splits on
`connection.` into exactly two parts — the marker occurs exactly once — the
derived Job-Queue and AI-Service roots are deterministic pure functions of the
URL: the queue root is `https://queue.` followed by the remainder after the
marker, the AI root is `https://ai.` followed by the same remainder (the
decomposition and marker-freeness conjuncts make `b` precisely that
remainder), construction makes no network call, and a URL supplied without an
`http://` or `https://` scheme is treated as if it had the `https` scheme. -/
theorem derived_roots_from_marker_remainder :
    (∀ (token url a b : String),
      pySplitStr (ensureScheme url) _PREFIX_STORAGE_API_URL = [a, b] →
      (KeboolaClient.init token url).1 = [] ∧
      queue_api_url_of (KeboolaClient.init token url).2 =
        some ("https://queue." ++ b) ∧
      ai_service_api_url_of (KeboolaClient.init token url).2 =
        some ("https://ai." ++ b) ∧
      ensureScheme url = a ++ "connection." ++ b ∧
      ¬ (_PREFIX_STORAGE_API_URL.data <:+: a.data)) ∧
    (∀ (token url : String),
      pyStartsWith "http://" url = false → pyStartsWith "https://" url = false →
      KeboolaClient.init token url = KeboolaClient.init token ("https://" ++ url)) := by
  constructor
  · intro token url a b h
    have hm : _PREFIX_STORAGE_API_URL.data ≠ [] := by decide
    have hinit : deriveRemainder (ensureScheme url) = some b := by
      unfold deriveRemainder
      rw [h]
    refine ⟨?_, ?_, ?_, ?_, ?_⟩
    · simp only [KeboolaClient.init]
      rw [hinit]
    · simp only [KeboolaClient.init]
      rw [hinit]
      rfl
    · simp only [KeboolaClient.init]
      rw [hinit]
      rfl
    · have hj := pyJoinStr_pySplitStr (ensureScheme url) _PREFIX_STORAGE_API_URL hm
      rw [h] at hj
      rw [← hj]
      rfl
    · exact pySplitStr_head_no_marker (ensureScheme url) _PREFIX_STORAGE_API_URL a [b] hm h
  · intro token url h1 h2
    have e1 : ensureScheme url = "https://" ++ url := by
      unfold ensureScheme
      rw [h1, h2]
      rfl
    have e2 : ensureScheme ("https://" ++ url) = "https://" ++ url := by
      unfold ensureScheme
      have hp : pyStartsWith "https://" ("https://" ++ url) = true := by
        unfold pyStartsWith
        rw [String.data_append]
        exact List.isPrefixOf_iff_prefix.mpr (List.prefix_append _ _)
      rw [hp]
      simp
    simp only [KeboolaClient.init]
    rw [e1, e2]

/-- Witness for C9 at a concrete input: a URL supplied without a scheme, in
which the marker occurs exactly once. -/
theorem derived_roots_from_marker_remainder_witness :
    queue_api_url_of (KeboolaClient.init "tok" "connection.keboola.com").2 =
      some ("https://queue." ++ "keboola.com") ∧
    ai_service_api_url_of (KeboolaClient.init "tok" "connection.keboola.com").2 =
      some ("https://ai." ++ "keboola.com") ∧
    KeboolaClient.init "tok" "connection.keboola.com" =
      KeboolaClient.init "tok" ("https://" ++ "connection.keboola.com") := by
  have h := derived_roots_from_marker_remainder.1 "tok" "connection.keboola.com"
    "https://" "keboola.com" (by decide)
  exact ⟨h.2.1, h.2.2.1,
    derived_roots_from_marker_remainder.2 "tok" "connection.keboola.com"
      (by decide) (by decide)⟩

/-- Counterexample to C9 as stated: in
`https://connection.north.connection.keboola.com` the remainder after the
marker is `north.connection.keboola.com`, but the derived queue root is
`https://queue.north.` — only the segment up to the next occurrence of the
marker is kept, not the remainder. -/
theorem derived_root_not_remainder_after_marker :
    queue_api_url_of (KeboolaClient.init "tok"
        "https://connection.north.connection.keboola.com").2 =
      some "https://queue.north." ∧
    (("https://queue.north." : String) ==
      "https://queue." ++ "north.connection.keboola.com") = false := by
  exact ⟨rfl, by decide⟩

/-- C10 (amended): for every storage connection URL accepted by
`KeboolaClient.__init__` (normalized form splitting on `connection.` into at
least two parts), the derived Job-Queue and AI-Service roots always carry the
`https://` scheme — even when the storage URL was supplied with an explicit
`http://` scheme, since the fixed `https://queue.` / `https://ai.` prefixes
are re-attached; the derivation discards everything up to and including the
first occurrence of the substring `connection.` (decomposition and
marker-freeness conjuncts) but re-prefixes only the segment of the remainder
up to the next occurrence of the marker — the whole remainder exactly when
the marker occurs once — not the whole remainder in general. -/
theorem derived_roots_always_https :
    ∀ (token url a b : String) (ts : List String),
      pySplitStr (ensureScheme url) _PREFIX_STORAGE_API_URL = a :: b :: ts →
      queue_api_url_of (KeboolaClient.init token url).2 =
        some ("https://queue." ++ b) ∧
      ai_service_api_url_of (KeboolaClient.init token url).2 =
        some ("https://ai." ++ b) ∧
      pyStartsWith "https://" ("https://queue." ++ b) = true ∧
      pyStartsWith "https://" ("https://ai." ++ b) = true ∧
      ensureScheme url =
        a ++ "connection." ++ pyJoinStr "connection." (b :: ts) ∧
      ¬ (_PREFIX_STORAGE_API_URL.data <:+: a.data) := by
  intro token url a b ts h
  have hm : _PREFIX_STORAGE_API_URL.data ≠ [] := by decide
  have hinit : deriveRemainder (ensureScheme url) = some b := by
    unfold deriveRemainder
    rw [h]
  refine ⟨?_, ?_, ?_, ?_, ?_, ?_⟩
  · simp only [KeboolaClient.init]
    rw [hinit]
    rfl
  · simp only [KeboolaClient.init]
    rw [hinit]
    rfl
  · unfold pyStartsWith
    rw [String.data_append]
    exact List.isPrefixOf_iff_prefix.mpr
      ((by decide : ("https://".data : List Char) <+: "https://queue.".data).trans
        (List.prefix_append _ _))
  · unfold pyStartsWith
    rw [String.data_append]
    exact List.isPrefixOf_iff_prefix.mpr
      ((by decide : ("https://".data : List Char) <+: "https://ai.".data).trans
        (List.prefix_append _ _))
  · have hj := pyJoinStr_pySplitStr (ensureScheme url) _PREFIX_STORAGE_API_URL hm
    rw [h] at hj
    rw [← hj]
    rfl
  · exact pySplitStr_head_no_marker (ensureScheme url) _PREFIX_STORAGE_API_URL a
      (b :: ts) hm h

/-- Witness for C10 at a concrete input: an explicit `http://` storage URL
still yields `https://`-carrying derived roots. -/
theorem derived_roots_always_https_witness :
    queue_api_url_of (KeboolaClient.init "tok" "http://connection.eu.keboola.com").2 =
      some ("https://queue." ++ "eu.keboola.com") ∧
    pyStartsWith "https://"
      ("https://queue." ++ "eu.keboola.com") = true := by
  have h := derived_roots_always_https "tok" "http://connection.eu.keboola.com"
    "http://" "eu.keboola.com" [] (by decide)
  exact ⟨h.1, h.2.2.1⟩

/-- Counterexample to C10 as stated: in
`http://connection.connection.keboola.com` the remainder after the first
occurrence of the marker is `connection.keboola.com`, but the derived queue
root is `https://queue.` (the empty segment between the two marker
occurrences), not `https://queue.connection.keboola.com`. -/
theorem derived_root_drops_second_marker_segment :
    queue_api_url_of (KeboolaClient.init "tok"
        "http://connection.connection.keboola.com").2 =
      some "https://queue." ∧
    (("https://queue." : String) ==
      "https://queue." ++ "connection.keboola.com") = false := by
  exact ⟨rfl, by decide⟩

/-- Reads `configuration.parameters.<k>` from a configuration payload. -/
def paramsField (cfg : Json) (k : String) : Option Json :=
  ((cfg.lookup "configuration").bind (fun c => c.lookup "parameters")).bind
    (fun p => p.lookup k)

/-- A concrete facade instance used by the concrete-scenario conjuncts. -/
def sampleClient : KeboolaClientModel :=
  { token := "tok"
    storage_api_url := "https://connection.keboola.com"
    queue_api_url := "https://queue.keboola.com"
    ai_service_api_url := "https://ai.keboola.com"
    storage_client := RawKeboolaClient.make "https://connection.keboola.com/v2/storage" "tok"
    jobs_queue_client := RawKeboolaClient.make "https://queue.keboola.com" "tok"
    ai_service_client := RawKeboolaClient.make "https://ai.keboola.com" "tok" }

/-- C6: for every call to `create_data_app` in which a non-empty script is
supplied, the script-generation call is skipped entirely (the generator flag
is `false` and its result is never consulted), the first issued request is the
POST of the built configuration, and that configuration has
`parameters.script` equal to the supplied script and `parameters.id` equal to
the supplied slug; in particular the `name="Sales"`, `slug="sales-app"`,
`script=["print(1)"]` scenario POSTs `parameters.script == ["print(1)"]` and
`parameters.id == "sales-app"`. -/
theorem create_data_app_with_script_skips_generation :
    (∀ (name description slug size : String) (auto : Int) (x : String)
        (xs : List String) (streamlit_config : Option Json)
        (client : KeboolaClientModel) (branch_id : String)
        (genResult : Except KbcError (List String))
        (postResult componentResult : Except KbcError Json)
        (validate : Json → Json → Except KbcError DataAppConfigurationModel),
      (create_data_app name description slug (some (x :: xs)) size auto
          streamlit_config client branch_id genResult postResult componentResult
          validate).1 = false ∧
      (create_data_app name description slug (some (x :: xs)) size auto
          streamlit_config client branch_id genResult postResult componentResult
          validate).2.1.head? =
        some (client.storage_client.postRequest
          ("branch/" ++ branch_id ++ "/components/" ++ "keboola.app-data-app" ++ "/configs")
          (some (dataAppConfiguration name description slug (x :: xs) size auto
            streamlit_config)) [])) ∧
    (∀ (name description slug size : String) (auto : Int) (scr : List String)
        (streamlit_config : Option Json),
      paramsField (dataAppConfiguration name description slug scr size auto
          streamlit_config) "script" = some (Json.arr (scr.map Json.str)) ∧
      paramsField (dataAppConfiguration name description slug scr size auto
          streamlit_config) "id" = some (Json.str slug)) ∧
    ((create_data_app "Sales" "Shows sales data" "sales-app" (some ["print(1)"])
        "tiny" 900 none sampleClient "default"
        (.error (.generic "generator must not be consulted"))
        (.ok (Json.obj [])) (.ok (Json.obj []))
        (fun _ _ => .error (.validation "ignored"))).1 = false ∧
     paramsField (dataAppConfiguration "Sales" "Shows sales data" "sales-app"
        ["print(1)"] "tiny" 900 none) "script" = some (Json.arr [Json.str "print(1)"]) ∧
     paramsField (dataAppConfiguration "Sales" "Shows sales data" "sales-app"
        ["print(1)"] "tiny" 900 none) "id" = some (Json.str "sales-app")) := by
  refine ⟨fun name description slug size auto x xs sc client branch g p cr v => ?_,
          fun name description slug size auto scr sc => ?_, ?_, ?_, ?_⟩
  · constructor
    · rcases p with e | raw
      · rfl
      · rcases cr with e | comp
        · rfl
        · rcases hv : v raw comp with e | cfg <;> simp [create_data_app, hv]
    · rcases p with e | raw
      · rfl
      · rcases cr with e | comp
        · rfl
        · rcases hv : v raw comp with e | cfg <;> simp [create_data_app, hv]
  · constructor <;>
      simp [dataAppConfiguration, paramsField, Json.lookup]
  · rfl
  · rfl
  · rfl

/-- C7: in both creation operations any failure during the POST, during the
component re-fetch, or during the local result composition is re-raised
unchanged (the result carries the very same error value), and no compensating
rollback request is ever issued: the request trace consists of the POST alone
(when the POST itself failed) or of the POST followed by the component GET —
never a DELETE — so a create that succeeded remotely before the local failure
leaves the remote artifact in place. -/
theorem create_failures_reraised_no_rollback :
    (∀ (name description : String) (stmts tbls : List String) (d : SqlDialect)
        (client : KeboolaClientModel) (branch_id : String) (e : KbcError)
        (componentResult : Except KbcError Json)
        (validate : Json → Json → Except KbcError ComponentConfigurationModel),
      (create_sql_transformation name description stmts tbls (.ok d) client
          branch_id (.error e) componentResult validate).2 = .error e ∧
      (create_sql_transformation name description stmts tbls (.ok d) client
          branch_id (.error e) componentResult validate).1.map Request.method =
        [.post]) ∧
    (∀ (name description : String) (stmts tbls : List String) (d : SqlDialect)
        (client : KeboolaClientModel) (branch_id : String) (raw : Json)
        (e : KbcError)
        (validate : Json → Json → Except KbcError ComponentConfigurationModel),
      (create_sql_transformation name description stmts tbls (.ok d) client
          branch_id (.ok raw) (.error e) validate).2 = .error e ∧
      (create_sql_transformation name description stmts tbls (.ok d) client
          branch_id (.ok raw) (.error e) validate).1.map Request.method =
        [.post, .get]) ∧
    (∀ (name description : String) (stmts tbls : List String) (d : SqlDialect)
        (client : KeboolaClientModel) (branch_id : String) (raw comp : Json)
        (e : KbcError)
        (validate : Json → Json → Except KbcError ComponentConfigurationModel),
      validate raw comp = .error e →
      (create_sql_transformation name description stmts tbls (.ok d) client
          branch_id (.ok raw) (.ok comp) validate).2 = .error e ∧
      (create_sql_transformation name description stmts tbls (.ok d) client
          branch_id (.ok raw) (.ok comp) validate).1.map Request.method =
        [.post, .get]) ∧
    (∀ (name description slug size : String) (auto : Int) (x : String)
        (xs : List String) (sc : Option Json) (client : KeboolaClientModel)
        (branch_id : String) (g : Except KbcError (List String)) (e : KbcError)
        (componentResult : Except KbcError Json)
        (validate : Json → Json → Except KbcError DataAppConfigurationModel),
      (create_data_app name description slug (some (x :: xs)) size auto sc client
          branch_id g (.error e) componentResult validate).2.2 = .error e ∧
      (create_data_app name description slug (some (x :: xs)) size auto sc client
          branch_id g (.error e) componentResult validate).2.1.map Request.method =
        [.post]) ∧
    (∀ (name description slug size : String) (auto : Int) (x : String)
        (xs : List String) (sc : Option Json) (client : KeboolaClientModel)
        (branch_id : String) (g : Except KbcError (List String)) (raw : Json)
        (e : KbcError)
        (validate : Json → Json → Except KbcError DataAppConfigurationModel),
      (create_data_app name description slug (some (x :: xs)) size auto sc client
          branch_id g (.ok raw) (.error e) validate).2.2 = .error e ∧
      (create_data_app name description slug (some (x :: xs)) size auto sc client
          branch_id g (.ok raw) (.error e) validate).2.1.map Request.method =
        [.post, .get]) ∧
    (∀ (name description slug size : String) (auto : Int) (x : String)
        (xs : List String) (sc : Option Json) (client : KeboolaClientModel)
        (branch_id : String) (g : Except KbcError (List String)) (raw comp : Json)
        (e : KbcError)
        (validate : Json → Json → Except KbcError DataAppConfigurationModel),
      validate raw comp = .error e →
      (create_data_app name description slug (some (x :: xs)) size auto sc client
          branch_id g (.ok raw) (.ok comp) validate).2.2 = .error e ∧
      (create_data_app name description slug (some (x :: xs)) size auto sc client
          branch_id g (.ok raw) (.ok comp) validate).2.1.map Request.method =
        [.post, .get]) := by
  refine ⟨fun _ _ _ _ _ _ _ _ _ _ => ⟨rfl, rfl⟩,
          fun _ _ _ _ _ _ _ _ _ _ => ⟨rfl, rfl⟩,
          fun name description stmts tbls d client branch raw comp e v hv => ?_,
          fun _ _ _ _ _ _ _ _ _ _ _ _ _ _ => ⟨rfl, rfl⟩,
          fun _ _ _ _ _ _ _ _ _ _ _ _ _ _ => ⟨rfl, rfl⟩,
          fun name description slug size auto x xs sc client branch g raw comp e
            v hv => ?_⟩
  · constructor <;>
      simp [create_sql_transformation, hv, RawKeboolaClient.postRequest,
        componentDetailsRequest, RawKeboolaClient.getRequest]
  · constructor <;>
      simp [create_data_app, hv, RawKeboolaClient.postRequest,
        componentDetailsRequest, RawKeboolaClient.getRequest]

/-- Witness for C7 at concrete inputs: a local-composition failure after a
successful POST is re-raised unchanged and the trace keeps the POST with no
DELETE, for both creation operations. -/
theorem create_failures_reraised_no_rollback_witness :
    ((create_sql_transformation "demo" "A demo transformation"
        ["CREATE TABLE t1 AS SELECT 1"] ["t1"] (.ok .snowflake) sampleClient
        "default" (.ok (Json.obj [])) (.ok (Json.obj []))
        (fun _ _ => .error (.validation "compose failed"))).2 =
      .error (.validation "compose failed") ∧
     (create_sql_transformation "demo" "A demo transformation"
        ["CREATE TABLE t1 AS SELECT 1"] ["t1"] (.ok .snowflake) sampleClient
        "default" (.ok (Json.obj [])) (.ok (Json.obj []))
        (fun _ _ => .error (.validation "compose failed"))).1.map Request.method =
      [.post, .get]) ∧
    ((create_data_app "Sales" "Shows sales data" "sales-app" (some ["print(1)"])
        "tiny" 900 none sampleClient "default" (.ok []) (.ok (Json.obj []))
        (.ok (Json.obj [])) (fun _ _ => .error (.validation "compose failed"))).2.2 =
      .error (.validation "compose failed") ∧
     (create_data_app "Sales" "Shows sales data" "sales-app" (some ["print(1)"])
        "tiny" 900 none sampleClient "default" (.ok []) (.ok (Json.obj []))
        (.ok (Json.obj [])) (fun _ _ => .error (.validation "compose failed"))).2.1.map
        Request.method = [.post, .get]) :=
  ⟨create_failures_reraised_no_rollback.2.2.1 "demo" "A demo transformation"
      ["CREATE TABLE t1 AS SELECT 1"] ["t1"] .snowflake sampleClient "default"
      (Json.obj []) (Json.obj []) (.validation "compose failed")
      (fun _ _ => .error (.validation "compose failed")) rfl,
   create_failures_reraised_no_rollback.2.2.2.2.2 "Sales" "Shows sales data"
      "sales-app" "tiny" 900 "print(1)" [] none sampleClient "default" (.ok [])
      (Json.obj []) (Json.obj []) (.validation "compose failed")
      (fun _ _ => .error (.validation "compose failed")) rfl⟩

/-- Witness for C2 at the concrete scenario input: the set predicate appears
under its upstream name and `limit` is among the allowed keys. -/
theorem search_jobs_by_sends_exactly_nonnull_predicates_witness :
    lookupParam (searchJobsParams
        { component_id := some "ex-1", status := some ["success"], limit := 10 })
      "componentId" = some (Json.str "ex-1") ∧
    ("limit" : String) ∈
      (["componentId", "configId", "status", "limit", "offset", "sortBy",
        "sortOrder"] : List String) := by
  have h := search_jobs_by_sends_exactly_nonnull_predicates.2.1
    { component_id := some "ex-1", status := some ["success"], limit := 10 }
  exact ⟨h.1, h.2.2.2.2.2.2.2.1 ("limit", Json.num 10)
    (by simp [searchJobsParams, rawSearchParams])⟩
